import Mathlib

/-!
# EarGuard: verification of the ducking controller (src/main.go)

Shallow embedding of the EarGuard volume-ducking program. The Go source is a
single `main.go`: a JSON configuration loader with command-line overrides, and
a polling loop holding a ring buffer of peak samples plus a two-state
(Normal/Reduced) hysteresis machine that divides the master volume when the
windowed average peak exceeds a threshold and restores it after a quiet delay.

Modelling conventions:
* `float32` values (peaks, volumes, thresholds) are embedded as `ℚ`; the
  claims under verification are control-flow properties, not rounding facts.
* Timestamps (`time.Time`) are embedded as `ℚ` seconds; `time.Since(t)` at a
  tick whose clock reading is `now` is `now - t`.
* Fallible device calls (`GetPeakValue`, `GetMasterVolumeLevelScalar`,
  `SetMasterVolumeLevelScalar`) are oracles carried by the tick input:
  `Option ℚ` for the two reads, a success bit for the write.
* A Go runtime panic (index out of range, modulo by zero) is `none` in the
  `Option`-valued step function.
* `json.Unmarshal` into a pre-populated struct is modelled field-wise. A
  syntactically invalid file fails Unmarshal's validity pre-check before any
  field is decoded, leaving the pre-populated value untouched. A valid JSON
  file decodes best-effort: every present well-typed field overwrites the
  struct field, a mistyped field is skipped while an `UnmarshalTypeError`
  is recorded, and the error is returned after decoding the rest — so a
  parse failure can leave the struct partially overwritten.
-/

namespace EarGuard

/-- `Config` struct, src/main.go lines 18-24. `Threshold`, `DivisionFactor`
are float64, `RestoreDelay` is int, `SampleWindow` is int (ℕ here: it is used
as a slice length). -/
structure Config where
  threshold : ℚ
  divisionFactor : ℚ
  restoreDelay : ℤ
  verbose : Bool
  sampleWindow : ℕ
deriving DecidableEq

/-- `defaultConfig`, src/main.go lines 26-32. -/
def defaultConfig : Config :=
  { threshold := 2/5
    divisionFactor := 4
    restoreDelay := 3
    verbose := false
    sampleWindow := 5 }

/-- The command-line flag values after `flag.Parse()`, src/main.go lines
34-40. Numeric flags default to the sentinel `-1`; `verbose` defaults to
`false`. -/
structure Flags where
  threshold : ℚ
  divisionFactor : ℚ
  restoreDelay : ℤ
  verbose : Bool
deriving DecidableEq

/-- The flag values when no command-line option is passed: the declared
defaults of src/main.go lines 35-38. -/
def defaultFlags : Flags :=
  { threshold := -1, divisionFactor := -1, restoreDelay := -1, verbose := false }

/-- The override block of `main`, src/main.go lines 87-96: each numeric flag
overrides its config field only when `>= 0`; `config.Verbose = *verbose` is
unconditional. -/
def applyOverrides (config : Config) (fl : Flags) : Config :=
  let config := if fl.threshold ≥ 0 then { config with threshold := fl.threshold } else config
  let config :=
    if fl.divisionFactor ≥ 0 then { config with divisionFactor := fl.divisionFactor } else config
  let config :=
    if fl.restoreDelay ≥ 0 then { config with restoreDelay := fl.restoreDelay } else config
  { config with verbose := fl.verbose }

/-- The JSON document in the configuration file, as the set of fields it
provides: `json.Unmarshal` leaves a struct field untouched when the document
omits the corresponding key. -/
structure ConfigFile where
  threshold : Option ℚ
  divisionFactor : Option ℚ
  restoreDelay : Option ℤ
  verbose : Option Bool
  sampleWindow : Option ℕ
deriving DecidableEq

/-- `json.Unmarshal(data, &config)` with `config` pre-populated: present
fields overwrite, absent fields keep the existing value
(src/main.go lines 43, 70-72). -/
def mergeConfig (base : Config) (f : ConfigFile) : Config :=
  { threshold := f.threshold.getD base.threshold
    divisionFactor := f.divisionFactor.getD base.divisionFactor
    restoreDelay := f.restoreDelay.getD base.restoreDelay
    verbose := f.verbose.getD base.verbose
    sampleWindow := f.sampleWindow.getD base.sampleWindow }

/-- How one known key of the configuration file appears to `json.Unmarshal`
in a syntactically valid document: missing, present with a value of the
field's type, or present with a value of the wrong type. For a mistyped
field Go records an `UnmarshalTypeError`, skips the value, and keeps
decoding the remaining fields, returning the recorded error at the end. -/
inductive JsonField (α : Type) where
  | absent : JsonField α
  | ok : α → JsonField α
  | mistyped : JsonField α
deriving DecidableEq

/-- What `json.Unmarshal` decodes a field into, given the pre-populated
value: a well-typed value overwrites, an absent or mistyped (skipped) field
keeps the existing value. -/
def JsonField.decodeInto {α : Type} (base : α) : JsonField α → α
  | JsonField.absent => base
  | JsonField.ok a => a
  | JsonField.mistyped => base

/-- Whether this field makes `json.Unmarshal` report an
`UnmarshalTypeError`. -/
def JsonField.isMistyped {α : Type} : JsonField α → Bool
  | JsonField.mistyped => true
  | _ => false

/-- A syntactically valid configuration document: the status of each known
key. -/
structure ConfigDoc where
  threshold : JsonField ℚ
  divisionFactor : JsonField ℚ
  restoreDelay : JsonField ℤ
  verbose : JsonField Bool
  sampleWindow : JsonField ℕ
deriving DecidableEq

/-- The bytes of the configuration file as `json.Unmarshal` sees them:
either not valid JSON (the validity pre-check fails and the struct is never
touched), or a valid document. -/
inductive ConfigBytes where
  | invalid : ConfigBytes
  | valid : ConfigDoc → ConfigBytes
deriving DecidableEq

/-- `json.Unmarshal(data, &config)` with `config` pre-populated: the
resulting struct together with whether an error is returned. Invalid JSON
fails the validity pre-check, leaving the struct untouched. A valid
document decodes best-effort: well-typed fields overwrite, mistyped fields
are skipped, and an error is returned iff some field was mistyped. -/
def unmarshalConfig (base : Config) : ConfigBytes → Config × Bool
  | ConfigBytes.invalid => (base, true)
  | ConfigBytes.valid doc =>
    ({ threshold := doc.threshold.decodeInto base.threshold
       divisionFactor := doc.divisionFactor.decodeInto base.divisionFactor
       restoreDelay := doc.restoreDelay.decodeInto base.restoreDelay
       verbose := doc.verbose.decodeInto base.verbose
       sampleWindow := doc.sampleWindow.decodeInto base.sampleWindow },
     doc.threshold.isMistyped || doc.divisionFactor.isMistyped ||
       doc.restoreDelay.isMistyped || doc.verbose.isMistyped ||
       doc.sampleWindow.isMistyped)

/-- `loadConfig`'s parse step (src/main.go lines 43, 65-76):
`config := defaultConfig`, then `json.Unmarshal(data, &config)`; the
(possibly partially overwritten) `config` is handed back together with the
error flag, and on error `main` (lines 82-86) prints a warning and proceeds
with that value all the same. -/
def loadConfigFrom (bytes : ConfigBytes) : Config × Bool :=
  unmarshalConfig defaultConfig bytes

/-- A well-typed document carrying exactly the fields a `ConfigFile`
provides. -/
def ConfigFile.toDoc (f : ConfigFile) : ConfigDoc :=
  { threshold := (f.threshold.map JsonField.ok).getD JsonField.absent
    divisionFactor := (f.divisionFactor.map JsonField.ok).getD JsonField.absent
    restoreDelay := (f.restoreDelay.map JsonField.ok).getD JsonField.absent
    verbose := (f.verbose.map JsonField.ok).getD JsonField.absent
    sampleWindow := (f.sampleWindow.map JsonField.ok).getD JsonField.absent }

/-- The configuration `loadConfig` hands back to `main` in the two
extreme parse outcomes: a syntactically invalid file (Unmarshal's validity
pre-check leaves the pre-populated defaults untouched) or a fully
well-typed file, whose present fields merge over the defaults. The general
outcome, including valid files with mistyped fields that are partially
decoded while an error is returned, is `loadConfigFrom`;
`loadConfigResult_agrees_with_unmarshal` ties the two together. -/
def loadConfigResult (parse : Except String ConfigFile) : Config :=
  match parse with
  | Except.error _ => defaultConfig
  | Except.ok f => mergeConfig defaultConfig f

/-- A syntactically valid configuration file whose `threshold` key holds
the well-typed value 0.9 while its `division_factor` key holds a value of
the wrong type (say, a string), the other keys absent. -/
def typeErrorDoc : ConfigDoc :=
  { threshold := JsonField.ok (9/10)
    divisionFactor := JsonField.mistyped
    restoreDelay := JsonField.absent
    verbose := JsonField.absent
    sampleWindow := JsonField.absent }

/-- One ring-buffer write exactly as the loop performs it, src/main.go lines
180-181: `peakBuffer[bufferIndex] = peakValue;
bufferIndex = (bufferIndex + 1) % config.SampleWindow`. The state is the pair
(buffer contents, cursor). -/
def pushSample (w : ℕ) (b : List ℚ × ℕ) (x : ℚ) : List ℚ × ℕ :=
  (b.1.set b.2 x, (b.2 + 1) % w)

/-- Folding `pushSample` over a list of samples. -/
def pushAll (w : ℕ) (b : List ℚ × ℕ) (xs : List ℚ) : List ℚ × ℕ :=
  xs.foldl (pushSample w) b

/-- The average computation, src/main.go lines 183-187: sum of the whole
buffer divided by `SampleWindow`. -/
def averageOf (w : ℕ) (buf : List ℚ) : ℚ :=
  buf.sum / (w : ℚ)

/-- The mutable loop state of `main`, src/main.go lines 156-160:
`isReducedVolume`, `originalVolume`, `lastLoudTimestamp`, `peakBuffer`,
`bufferIndex`. (`lastPrintTime` is omitted: it only gates the verbose
diagnostic print and touches no other state.) -/
structure LoopState where
  isReducedVolume : Bool
  originalVolume : ℚ
  lastLoudTimestamp : ℚ
  peakBuffer : List ℚ
  bufferIndex : ℕ
deriving DecidableEq

/-- The loop state at entry to the `for` loop: `false`, zero values, a
zero-filled buffer of length `SampleWindow`, cursor 0
(src/main.go lines 156-160). -/
def initialState (cfg : Config) : LoopState :=
  { isReducedVolume := false
    originalVolume := 0
    lastLoudTimestamp := 0
    peakBuffer := List.replicate cfg.sampleWindow 0
    bufferIndex := 0 }

/-- The environment of one loop iteration: the clock reading and the device
call outcomes. -/
structure TickInput where
  now : ℚ
  peakRead : Option ℚ
  volumeRead : Option ℚ
  setVolumeOk : Bool
deriving DecidableEq

/-- The average the loop computes on a tick that reads peak `p` in state `s`:
the buffer is written first, then summed (src/main.go lines 180-187). -/
def avgAfterPush (cfg : Config) (s : LoopState) (p : ℚ) : ℚ :=
  averageOf cfg.sampleWindow (pushSample cfg.sampleWindow (s.peakBuffer, s.bufferIndex) p).1

/-- One iteration of the `for` loop, src/main.go lines 172-237. Returns
`none` on a Go panic (buffer write out of bounds / modulo by zero when
`SampleWindow = 0`), otherwise the new state together with the argument of
the `SetMasterVolumeLevelScalar` call this iteration issued, if any.

Branch structure mirrors the source exactly:
* peak read failure: `continue`, nothing changed;
* buffer write and cursor advance, average over the new buffer;
* volume read failure: `continue` (the sample stays pushed);
* `avg > threshold && !isReducedVolume`: `originalVolume = currentVolume`
  (this assignment precedes the set call and persists even on failure),
  issue `setVolume(originalVolume/divisionFactor)`; on success become
  Reduced with `lastLoudTimestamp = now`;
* `avg > threshold && isReducedVolume`: refresh `lastLoudTimestamp`;
* `isReducedVolume && now - lastLoudTimestamp > restoreDelay`: issue
  `setVolume(originalVolume)`; on success become Normal;
* otherwise: no action. -/
def tick (cfg : Config) (s : LoopState) (inp : TickInput) : Option (LoopState × Option ℚ) :=
  match inp.peakRead with
  | none => some (s, none)
  | some peakValue =>
    if s.bufferIndex < s.peakBuffer.length ∧ 0 < cfg.sampleWindow then
      let pb := pushSample cfg.sampleWindow (s.peakBuffer, s.bufferIndex) peakValue
      let averagePeak := averageOf cfg.sampleWindow pb.1
      let s1 : LoopState := { s with peakBuffer := pb.1, bufferIndex := pb.2 }
      match inp.volumeRead with
      | none => some (s1, none)
      | some currentVolume =>
        if averagePeak > cfg.threshold ∧ s.isReducedVolume = false then
          let originalVolume := currentVolume
          let newVolume := originalVolume / cfg.divisionFactor
          if inp.setVolumeOk then
            some ({ s1 with isReducedVolume := true
                            originalVolume := originalVolume
                            lastLoudTimestamp := inp.now }, some newVolume)
          else
            some ({ s1 with originalVolume := originalVolume }, some newVolume)
        else if averagePeak > cfg.threshold ∧ s.isReducedVolume = true then
          some ({ s1 with lastLoudTimestamp := inp.now }, none)
        else if s.isReducedVolume = true ∧
            inp.now - s.lastLoudTimestamp > (cfg.restoreDelay : ℚ) then
          if inp.setVolumeOk then
            some ({ s1 with isReducedVolume := false }, some s.originalVolume)
          else
            some (s1, some s.originalVolume)
        else
          some (s1, none)
    else
      none

/-- Iterating `tick` over a list of tick inputs, collecting for every tick
the volume command it issued (`none` when it issued no `setVolume` call).
`none` overall on a panic. -/
def runTicks (cfg : Config) (s : LoopState) : List TickInput → Option (LoopState × List (Option ℚ))
  | [] => some (s, [])
  | inp :: rest =>
    match tick cfg s inp with
    | none => none
    | some (s', ev) =>
      match runTicks cfg s' rest with
      | none => none
      | some (sEnd, evs) => some (sEnd, ev :: evs)

/-- The quietness hypothesis of the hysteresis claims, evaluated along the
run: on every tick that reads a peak, the average computed from the freshly
written buffer is at or below the threshold. -/
def allTicksQuiet (cfg : Config) : LoopState → List TickInput → Bool
  | _, [] => true
  | s, inp :: rest =>
    (match inp.peakRead with
     | none => true
     | some p => decide (avgAfterPush cfg s p ≤ cfg.threshold)) &&
    (match tick cfg s inp with
     | none => true
     | some (s', _) => allTicksQuiet cfg s' rest)

/-- The state produced by the buffer write of a successful peak read: only
`peakBuffer` and `bufferIndex` change. -/
def pushState (cfg : Config) (s : LoopState) (p : ℚ) : LoopState :=
  { s with
    peakBuffer := s.peakBuffer.set s.bufferIndex p
    bufferIndex := (s.bufferIndex + 1) % cfg.sampleWindow }

lemma tick_eq_of_peak (cfg : Config) (s : LoopState) (inp : TickInput) (p : ℚ)
    (hlen : s.peakBuffer.length = cfg.sampleWindow)
    (hidx : s.bufferIndex < cfg.sampleWindow)
    (hp : inp.peakRead = some p) :
    tick cfg s inp =
      (match inp.volumeRead with
       | none => some (pushState cfg s p, none)
       | some currentVolume =>
         if avgAfterPush cfg s p > cfg.threshold ∧ s.isReducedVolume = false then
           if inp.setVolumeOk then
             some ({ pushState cfg s p with
                      isReducedVolume := true
                      originalVolume := currentVolume
                      lastLoudTimestamp := inp.now }, some (currentVolume / cfg.divisionFactor))
           else
             some ({ pushState cfg s p with originalVolume := currentVolume },
                   some (currentVolume / cfg.divisionFactor))
         else if avgAfterPush cfg s p > cfg.threshold ∧ s.isReducedVolume = true then
           some ({ pushState cfg s p with lastLoudTimestamp := inp.now }, none)
         else if s.isReducedVolume = true ∧
             inp.now - s.lastLoudTimestamp > (cfg.restoreDelay : ℚ) then
           if inp.setVolumeOk then
             some ({ pushState cfg s p with isReducedVolume := false }, some s.originalVolume)
           else
             some (pushState cfg s p, some s.originalVolume)
         else
           some (pushState cfg s p, none)) := by
  have hb : s.bufferIndex < s.peakBuffer.length ∧ 0 < cfg.sampleWindow :=
    ⟨hlen ▸ hidx, Nat.lt_of_le_of_lt (Nat.zero_le s.bufferIndex) hidx⟩
  simp only [tick, hp, if_pos hb, avgAfterPush, averageOf, pushSample, pushState]

lemma tick_hold (cfg : Config) (s : LoopState) (inp : TickInput) (p v : ℚ)
    (hlen : s.peakBuffer.length = cfg.sampleWindow)
    (hidx : s.bufferIndex < cfg.sampleWindow)
    (_hred : s.isReducedVolume = true)
    (hp : inp.peakRead = some p) (hv : inp.volumeRead = some v)
    (havg : avgAfterPush cfg s p ≤ cfg.threshold)
    (htime : inp.now - s.lastLoudTimestamp ≤ (cfg.restoreDelay : ℚ)) :
    tick cfg s inp = some (pushState cfg s p, none) := by
  rw [tick_eq_of_peak cfg s inp p hlen hidx hp]
  simp only [hv]
  rw [if_neg, if_neg, if_neg]
  · exact fun h => absurd h.2 (by simp [htime])
  · exact fun h => absurd h.1 (not_lt.mpr havg)
  · exact fun h => absurd h.1 (not_lt.mpr havg)

lemma tick_restore (cfg : Config) (s : LoopState) (inp : TickInput) (p v : ℚ)
    (hlen : s.peakBuffer.length = cfg.sampleWindow)
    (hidx : s.bufferIndex < cfg.sampleWindow)
    (hred : s.isReducedVolume = true)
    (hp : inp.peakRead = some p) (hv : inp.volumeRead = some v)
    (havg : avgAfterPush cfg s p ≤ cfg.threshold)
    (htime : inp.now - s.lastLoudTimestamp > (cfg.restoreDelay : ℚ))
    (hok : inp.setVolumeOk = true) :
    tick cfg s inp =
      some ({ pushState cfg s p with isReducedVolume := false }, some s.originalVolume) := by
  rw [tick_eq_of_peak cfg s inp p hlen hidx hp]
  simp only [hv, hok, if_true]
  rw [if_neg, if_neg, if_pos ⟨hred, htime⟩]
  · exact fun h => absurd h.1 (not_lt.mpr havg)
  · exact fun h => absurd h.1 (not_lt.mpr havg)

/-- C1: from `Normal`, a tick whose freshly computed window average strictly
exceeds the threshold and whose `setVolume` call succeeds captures
`originalVolume` as the volume read this tick, issues
`setVolume(originalVolume / divisionFactor)`, transitions to `Reduced`, and
sets `lastLoudTimestamp` to the tick's clock reading
(src/main.go lines 201-212). -/
theorem trigger_correct (cfg : Config) (s : LoopState) (inp : TickInput) (p v : ℚ)
    (hlen : s.peakBuffer.length = cfg.sampleWindow)
    (hidx : s.bufferIndex < cfg.sampleWindow)
    (hnorm : s.isReducedVolume = false)
    (hp : inp.peakRead = some p) (hv : inp.volumeRead = some v)
    (havg : avgAfterPush cfg s p > cfg.threshold)
    (hok : inp.setVolumeOk = true) :
    ∃ s', tick cfg s inp = some (s', some (s'.originalVolume / cfg.divisionFactor)) ∧
      s'.originalVolume = v ∧ s'.isReducedVolume = true ∧
      s'.lastLoudTimestamp = inp.now := by
  refine ⟨{ pushState cfg s p with
            isReducedVolume := true
            originalVolume := v
            lastLoudTimestamp := inp.now }, ?_, rfl, rfl, rfl⟩
  rw [tick_eq_of_peak cfg s inp p hlen hidx hp]
  simp only [hv, hok, if_true]
  rw [if_pos ⟨havg, hnorm⟩]

/-- C1 witness: spec example at the degenerate window — threshold 0.4,
division 4, window 1, volume 0.8, peak 0.6 — reduces to 0.2 at time 1. -/
theorem trigger_correct_witness :
    ∃ s', tick { defaultConfig with sampleWindow := 1 }
        (initialState { defaultConfig with sampleWindow := 1 })
        { now := 1, peakRead := some (3/5), volumeRead := some (4/5), setVolumeOk := true } =
        some (s', some (s'.originalVolume / (4 : ℚ))) ∧
      s'.originalVolume = 4/5 ∧ s'.isReducedVolume = true ∧
      s'.lastLoudTimestamp = 1 :=
  trigger_correct { defaultConfig with sampleWindow := 1 }
    (initialState { defaultConfig with sampleWindow := 1 })
    { now := 1, peakRead := some (3/5), volumeRead := some (4/5), setVolumeOk := true }
    (3/5) (4/5) rfl (by decide) rfl rfl rfl
    (by norm_num [avgAfterPush, averageOf, pushSample, initialState, defaultConfig]) rfl

/-- C3: from `Reduced`, a tick whose window average strictly exceeds the
threshold refreshes `lastLoudTimestamp` to the tick's clock reading, issues
no volume command, and stays `Reduced` with `originalVolume` unchanged
(src/main.go lines 213-214): the restore timer restarts from the most recent
loud tick. -/
theorem retrigger_refreshes_timer (cfg : Config) (s : LoopState) (inp : TickInput) (p v : ℚ)
    (hlen : s.peakBuffer.length = cfg.sampleWindow)
    (hidx : s.bufferIndex < cfg.sampleWindow)
    (hred : s.isReducedVolume = true)
    (hp : inp.peakRead = some p) (hv : inp.volumeRead = some v)
    (havg : avgAfterPush cfg s p > cfg.threshold) :
    ∃ s', tick cfg s inp = some (s', none) ∧
      s'.lastLoudTimestamp = inp.now ∧ s'.isReducedVolume = true ∧
      s'.originalVolume = s.originalVolume := by
  refine ⟨{ pushState cfg s p with lastLoudTimestamp := inp.now }, ?_, rfl, by simp [pushState, hred], rfl⟩
  rw [tick_eq_of_peak cfg s inp p hlen hidx hp]
  simp only [hv]
  rw [if_neg, if_pos ⟨havg, hred⟩]
  exact fun h => absurd h.2 (by simp [hred])

/-- C3 witness: a reduced controller with a loud tick at time 7 refreshes the
timer to 7. -/
theorem retrigger_refreshes_timer_witness :
    ∃ s', tick { defaultConfig with sampleWindow := 1 }
        { isReducedVolume := true, originalVolume := 4/5, lastLoudTimestamp := 2,
          peakBuffer := [0], bufferIndex := 0 }
        { now := 7, peakRead := some 1, volumeRead := some (1/5), setVolumeOk := true } =
        some (s', none) ∧
      s'.lastLoudTimestamp = 7 ∧ s'.isReducedVolume = true ∧
      s'.originalVolume = 4/5 :=
  retrigger_refreshes_timer { defaultConfig with sampleWindow := 1 }
    { isReducedVolume := true, originalVolume := 4/5, lastLoudTimestamp := 2,
      peakBuffer := [0], bufferIndex := 0 }
    { now := 7, peakRead := some 1, volumeRead := some (1/5), setVolumeOk := true }
    1 (1/5) rfl (by decide) rfl rfl rfl
    (by norm_num [avgAfterPush, averageOf, pushSample, defaultConfig])

/-- C4: from `Reduced`, no successful tick changes `originalVolume`, and the
only volume command a tick can issue is the restore at exactly the captured
`originalVolume` — never a second division, and never a value depending on
the volume read while reduced (src/main.go lines 213-224). -/
theorem reduced_frame (cfg : Config) (s : LoopState) (inp : TickInput)
    (s' : LoopState) (ev : Option ℚ)
    (hred : s.isReducedVolume = true)
    (h : tick cfg s inp = some (s', ev)) :
    s'.originalVolume = s.originalVolume ∧ (ev = none ∨ ev = some s.originalVolume) := by
  cases hp : inp.peakRead with
  | none =>
    simp only [tick, hp] at h
    obtain ⟨rfl, rfl⟩ := Prod.mk.injEq .. ▸ Option.some.injEq .. ▸ h
    exact ⟨rfl, Or.inl rfl⟩
  | some p =>
    simp only [tick, hp] at h
    by_cases hb : s.bufferIndex < s.peakBuffer.length ∧ 0 < cfg.sampleWindow
    · rw [if_pos hb] at h
      cases hv : inp.volumeRead with
      | none =>
        simp only [hv] at h
        obtain ⟨rfl, rfl⟩ := Prod.mk.injEq .. ▸ Option.some.injEq .. ▸ h
        exact ⟨rfl, Or.inl rfl⟩
      | some v =>
        simp only [hv, hred] at h
        rw [if_neg (fun hc => by simp [hred] at hc)] at h
        split_ifs at h with h2 h3 h4
        · obtain ⟨rfl, rfl⟩ := Prod.mk.injEq .. ▸ Option.some.injEq .. ▸ h
          exact ⟨rfl, Or.inl rfl⟩
        · obtain ⟨rfl, rfl⟩ := Prod.mk.injEq .. ▸ Option.some.injEq .. ▸ h
          exact ⟨rfl, Or.inr rfl⟩
        · obtain ⟨rfl, rfl⟩ := Prod.mk.injEq .. ▸ Option.some.injEq .. ▸ h
          exact ⟨rfl, Or.inr rfl⟩
        · obtain ⟨rfl, rfl⟩ := Prod.mk.injEq .. ▸ Option.some.injEq .. ▸ h
          exact ⟨rfl, Or.inl rfl⟩
    · rw [if_neg hb] at h
      exact absurd h (by simp)

/-- C4 witness: a reduced, quiet, not-yet-expired tick keeps
`originalVolume` and issues nothing. -/
theorem reduced_frame_witness :
    ∃ s' ev, tick { defaultConfig with sampleWindow := 1 }
        { isReducedVolume := true, originalVolume := 4/5, lastLoudTimestamp := 2,
          peakBuffer := [0], bufferIndex := 0 }
        { now := 3, peakRead := some 0, volumeRead := some (1/5), setVolumeOk := true } =
        some (s', ev) ∧
      s'.originalVolume = 4/5 ∧ (ev = none ∨ ev = some (4/5 : ℚ)) := by
  have h := tick_hold { defaultConfig with sampleWindow := 1 }
    { isReducedVolume := true, originalVolume := 4/5, lastLoudTimestamp := 2,
      peakBuffer := [0], bufferIndex := 0 }
    { now := 3, peakRead := some 0, volumeRead := some (1/5), setVolumeOk := true }
    0 (1/5) rfl (by decide) rfl rfl rfl
    (by norm_num [avgAfterPush, averageOf, pushSample, defaultConfig])
    (by norm_num [defaultConfig])
  have h4 := reduced_frame { defaultConfig with sampleWindow := 1 }
    { isReducedVolume := true, originalVolume := 4/5, lastLoudTimestamp := 2,
      peakBuffer := [0], bufferIndex := 0 }
    { now := 3, peakRead := some 0, volumeRead := some (1/5), setVolumeOk := true }
    _ none rfl h
  exact ⟨_, none, h, h4.1, h4.2⟩

/-- C6 counterexample: on a tick whose peak read succeeds but whose volume
read fails, the sample IS pushed into the buffer (src/main.go line 180 runs
before the volume read at line 190), contradicting the claim that a
volume-read failure skips the tick with no sample pushed. -/
theorem volume_read_failure_pushes_sample :
    tick defaultConfig (initialState defaultConfig)
        { now := 0, peakRead := some 1, volumeRead := none, setVolumeOk := true } =
      some ({ isReducedVolume := false, originalVolume := 0, lastLoudTimestamp := 0,
              peakBuffer := [1, 0, 0, 0, 0], bufferIndex := 1 }, none) ∧
    ((1 : ℚ) :: [0, 0, 0, 0]) ≠ (initialState defaultConfig).peakBuffer := by
  constructor
  · rfl
  · intro h
    have := congrArg (fun l => l.headI) h
    simp [initialState, defaultConfig] at this

/-- C6 (amended): a failing peak read leaves the whole state unchanged and
issues no command; a failing volume read skips the decision logic — control
state unchanged, no volume command — but only after the sample has been
pushed and the cursor advanced (src/main.go lines 173-193). -/
theorem read_failure_skips_decision (cfg : Config) (s : LoopState) (inp : TickInput)
    (hlen : s.peakBuffer.length = cfg.sampleWindow)
    (hidx : s.bufferIndex < cfg.sampleWindow) :
    (inp.peakRead = none → tick cfg s inp = some (s, none)) ∧
    (∀ p, inp.peakRead = some p → inp.volumeRead = none →
      tick cfg s inp = some (pushState cfg s p, none) ∧
      (pushState cfg s p).isReducedVolume = s.isReducedVolume ∧
      (pushState cfg s p).originalVolume = s.originalVolume ∧
      (pushState cfg s p).lastLoudTimestamp = s.lastLoudTimestamp ∧
      (pushState cfg s p).peakBuffer = s.peakBuffer.set s.bufferIndex p) := by
  constructor
  · intro hp
    simp [tick, hp]
  · intro p hp hv
    rw [tick_eq_of_peak cfg s inp p hlen hidx hp]
    simp [hv, pushState]

/-- C6 witness: both failure modes at concrete inputs. -/
theorem read_failure_skips_decision_witness :
    tick defaultConfig (initialState defaultConfig)
        { now := 0, peakRead := none, volumeRead := some (1/2), setVolumeOk := true } =
      some (initialState defaultConfig, none) ∧
    tick defaultConfig (initialState defaultConfig)
        { now := 0, peakRead := some 1, volumeRead := none, setVolumeOk := true } =
      some (pushState defaultConfig (initialState defaultConfig) 1, none) :=
  ⟨(read_failure_skips_decision defaultConfig (initialState defaultConfig)
      { now := 0, peakRead := none, volumeRead := some (1/2), setVolumeOk := true }
      rfl (by decide)).1 rfl,
   ((read_failure_skips_decision defaultConfig (initialState defaultConfig)
      { now := 0, peakRead := some 1, volumeRead := none, setVolumeOk := true }
      rfl (by decide)).2 1 rfl rfl).1⟩

/-- C7 counterexample: a configuration file carrying `verbose = true` is NOT
preserved when the `-verbose` flag is absent: `config.Verbose = *verbose`
(src/main.go line 96) is unconditional, and the flag's default is `false`. -/
theorem verbose_file_value_clobbered :
    (applyOverrides
      { threshold := 2/5, divisionFactor := 4, restoreDelay := 3,
        verbose := true, sampleWindow := 5 }
      defaultFlags).verbose = false := by
  norm_num [applyOverrides, defaultFlags]

/-- C7 (amended): the three numeric flags override their fields exactly when
non-negative (the `-1` sentinel means "keep the file/default value");
`verbose` is unconditionally taken from the flag, so a file `verbose=true`
is lost when `-verbose` is absent; `sample_window` has no flag and always
keeps the file value (src/main.go lines 87-96). -/
theorem overrides_fieldwise (cfg : Config) (fl : Flags) :
    ((fl.threshold < 0 → (applyOverrides cfg fl).threshold = cfg.threshold) ∧
     (0 ≤ fl.threshold → (applyOverrides cfg fl).threshold = fl.threshold)) ∧
    ((fl.divisionFactor < 0 → (applyOverrides cfg fl).divisionFactor = cfg.divisionFactor) ∧
     (0 ≤ fl.divisionFactor → (applyOverrides cfg fl).divisionFactor = fl.divisionFactor)) ∧
    ((fl.restoreDelay < 0 → (applyOverrides cfg fl).restoreDelay = cfg.restoreDelay) ∧
     (0 ≤ fl.restoreDelay → (applyOverrides cfg fl).restoreDelay = fl.restoreDelay)) ∧
    (applyOverrides cfg fl).verbose = fl.verbose ∧
    (applyOverrides cfg fl).sampleWindow = cfg.sampleWindow := by
  refine ⟨⟨fun hn => ?_, fun hp => ?_⟩, ⟨fun hn => ?_, fun hp => ?_⟩,
          ⟨fun hn => ?_, fun hp => ?_⟩, ?_, ?_⟩ <;>
    simp only [applyOverrides, ge_iff_le] <;>
    split_ifs <;> first | rfl | linarith

/-- C7 witness: threshold flag passed (0.5), division and delay at the
sentinel, verbose flag absent (false): threshold overridden, the other
numeric fields kept, verbose from the flag, sample window kept. -/
theorem overrides_fieldwise_witness :
    (applyOverrides
        { threshold := 2/5, divisionFactor := 4, restoreDelay := 3,
          verbose := true, sampleWindow := 5 }
        { threshold := 1/2, divisionFactor := -1, restoreDelay := -1, verbose := false }).threshold
        = 1/2 ∧
    (applyOverrides
        { threshold := 2/5, divisionFactor := 4, restoreDelay := 3,
          verbose := true, sampleWindow := 5 }
        { threshold := 1/2, divisionFactor := -1, restoreDelay := -1, verbose := false }).divisionFactor
        = 4 ∧
    (applyOverrides
        { threshold := 2/5, divisionFactor := 4, restoreDelay := 3,
          verbose := true, sampleWindow := 5 }
        { threshold := 1/2, divisionFactor := -1, restoreDelay := -1, verbose := false }).restoreDelay
        = 3 ∧
    (applyOverrides
        { threshold := 2/5, divisionFactor := 4, restoreDelay := 3,
          verbose := true, sampleWindow := 5 }
        { threshold := 1/2, divisionFactor := -1, restoreDelay := -1, verbose := false }).verbose
        = false ∧
    (applyOverrides
        { threshold := 2/5, divisionFactor := 4, restoreDelay := 3,
          verbose := true, sampleWindow := 5 }
        { threshold := 1/2, divisionFactor := -1, restoreDelay := -1, verbose := false }).sampleWindow
        = 5 := by
  have h := overrides_fieldwise
    { threshold := 2/5, divisionFactor := 4, restoreDelay := 3,
      verbose := true, sampleWindow := 5 }
    { threshold := 1/2, divisionFactor := -1, restoreDelay := -1, verbose := false }
  exact ⟨h.1.2 (by norm_num), h.2.1.1 (by norm_num), h.2.2.1.1 (by norm_num),
    h.2.2.2.1, h.2.2.2.2⟩

/-- The configuration file that provides no fields at all. -/
def emptyConfigFile : ConfigFile :=
  { threshold := none, divisionFactor := none, restoreDelay := none,
    verbose := none, sampleWindow := none }

/-- C8 counterexample: a configuration file without `sample_window` yields
the default window of 5, not 1, and the two windows behave observably
differently: on a first tick with peak 1.0 at volume 0.8, the window-5
average is 0.2 ≤ 0.4 (no action), while a window-1 controller triggers and
issues a volume command. -/
theorem sample_window_absent_not_size_one :
    (loadConfigResult (Except.ok emptyConfigFile)).sampleWindow = 5 ∧
    tick (loadConfigResult (Except.ok emptyConfigFile))
        (initialState (loadConfigResult (Except.ok emptyConfigFile)))
        { now := 1, peakRead := some 1, volumeRead := some (4/5), setVolumeOk := true } =
      some ({ initialState (loadConfigResult (Except.ok emptyConfigFile)) with
              peakBuffer := [1, 0, 0, 0, 0], bufferIndex := 1 }, none) ∧
    tick { loadConfigResult (Except.ok emptyConfigFile) with sampleWindow := 1 }
        (initialState { loadConfigResult (Except.ok emptyConfigFile) with sampleWindow := 1 })
        { now := 1, peakRead := some 1, volumeRead := some (4/5), setVolumeOk := true } =
      some ({ isReducedVolume := true, originalVolume := 4/5, lastLoudTimestamp := 1,
              peakBuffer := [1], bufferIndex := 0 }, some (1/5)) := by
  refine ⟨rfl, ?_, ?_⟩ <;>
    norm_num [tick, avgAfterPush, averageOf, pushSample, initialState, defaultConfig,
      loadConfigResult, mergeConfig, emptyConfigFile, List.replicate_succ]

/-- C8 (amended): when `sample_window` is absent from the configuration
file, the loaded configuration keeps the default window of 5 — windowed
averaging over five samples, not unwindowed size-1 behavior
(src/main.go lines 26-32, 70-72). -/
theorem sample_window_absent_keeps_default (f : ConfigFile) (h : f.sampleWindow = none) :
    (mergeConfig defaultConfig f).sampleWindow = 5 := by
  simp [mergeConfig, h, defaultConfig]

/-- C8 witness. -/
theorem sample_window_absent_keeps_default_witness :
    (mergeConfig defaultConfig emptyConfigFile).sampleWindow = 5 :=
  sample_window_absent_keeps_default emptyConfigFile rfl

lemma loadConfigResult_agrees_with_unmarshal :
    (∀ e : String,
      loadConfigResult (Except.error e) = (unmarshalConfig defaultConfig ConfigBytes.invalid).1) ∧
    ∀ f : ConfigFile,
      loadConfigResult (Except.ok f) =
        (unmarshalConfig defaultConfig (ConfigBytes.valid f.toDoc)).1 := by
  refine ⟨fun e => rfl, fun f => ?_⟩
  obtain ⟨t, d, r, v, w⟩ := f
  cases t <;> cases d <;> cases r <;> cases v <;> cases w <;> rfl

/-- C9 counterexample: a syntactically valid configuration file with a
well-typed `threshold` of 0.9 and a mistyped `division_factor`.
`json.Unmarshal` best-effort-decodes it — threshold is populated into the
pre-populated struct — and still returns a parse error, which `loadConfig`
passes on; `main` prints its warning and proceeds with a configuration that
is NOT the default one, refuting the claim that every parse failure
proceeds with exactly the defaults. -/
theorem parse_failure_partial_decode :
    (loadConfigFrom (ConfigBytes.valid typeErrorDoc)).2 = true ∧
    (loadConfigFrom (ConfigBytes.valid typeErrorDoc)).1.threshold = 9/10 ∧
    (loadConfigFrom (ConfigBytes.valid typeErrorDoc)).1 ≠ defaultConfig := by
  refine ⟨rfl, rfl, fun h => ?_⟩
  have ht := congrArg Config.threshold h
  norm_num [loadConfigFrom, unmarshalConfig, typeErrorDoc, JsonField.decodeInto,
    defaultConfig] at ht

/-- C9 (amended): a failed configuration parse never stops the program —
`loadConfig` always hands back a configuration and `main` proceeds with it
after a warning (src/main.go lines 65-76, 81-85). When the file is not
valid JSON, Unmarshal's validity pre-check fails before any field is
decoded and the program proceeds with exactly the defaults: threshold 0.4,
division factor 4.0, restore delay 3, sample window 5, verbose false
(before any command-line override). When the file is valid JSON with some
mistyped field, Unmarshal reports the error yet best-effort-decodes the
rest: each well-typed present field takes the file's value and each
mistyped or absent field keeps its default, so the program can proceed with
a non-default configuration. -/
theorem parse_failure_still_proceeds :
    (loadConfigFrom ConfigBytes.invalid = (defaultConfig, true) ∧
     defaultConfig.threshold = 2/5 ∧ defaultConfig.divisionFactor = 4 ∧
     defaultConfig.restoreDelay = 3 ∧ defaultConfig.sampleWindow = 5 ∧
     defaultConfig.verbose = false) ∧
    ∀ doc : ConfigDoc,
      ((loadConfigFrom (ConfigBytes.valid doc)).2 = true ↔
        (doc.threshold.isMistyped = true ∨ doc.divisionFactor.isMistyped = true ∨
         doc.restoreDelay.isMistyped = true ∨ doc.verbose.isMistyped = true ∨
         doc.sampleWindow.isMistyped = true)) ∧
      (∀ x, doc.threshold = JsonField.ok x →
        (loadConfigFrom (ConfigBytes.valid doc)).1.threshold = x) ∧
      (doc.threshold = JsonField.mistyped ∨ doc.threshold = JsonField.absent →
        (loadConfigFrom (ConfigBytes.valid doc)).1.threshold = defaultConfig.threshold) ∧
      (∀ x, doc.divisionFactor = JsonField.ok x →
        (loadConfigFrom (ConfigBytes.valid doc)).1.divisionFactor = x) ∧
      (doc.divisionFactor = JsonField.mistyped ∨ doc.divisionFactor = JsonField.absent →
        (loadConfigFrom (ConfigBytes.valid doc)).1.divisionFactor
          = defaultConfig.divisionFactor) ∧
      (∀ x, doc.restoreDelay = JsonField.ok x →
        (loadConfigFrom (ConfigBytes.valid doc)).1.restoreDelay = x) ∧
      (doc.restoreDelay = JsonField.mistyped ∨ doc.restoreDelay = JsonField.absent →
        (loadConfigFrom (ConfigBytes.valid doc)).1.restoreDelay
          = defaultConfig.restoreDelay) ∧
      (∀ x, doc.verbose = JsonField.ok x →
        (loadConfigFrom (ConfigBytes.valid doc)).1.verbose = x) ∧
      (doc.verbose = JsonField.mistyped ∨ doc.verbose = JsonField.absent →
        (loadConfigFrom (ConfigBytes.valid doc)).1.verbose = defaultConfig.verbose) ∧
      (∀ x, doc.sampleWindow = JsonField.ok x →
        (loadConfigFrom (ConfigBytes.valid doc)).1.sampleWindow = x) ∧
      (doc.sampleWindow = JsonField.mistyped ∨ doc.sampleWindow = JsonField.absent →
        (loadConfigFrom (ConfigBytes.valid doc)).1.sampleWindow
          = defaultConfig.sampleWindow) := by
  refine ⟨⟨rfl, rfl, rfl, rfl, rfl, rfl⟩, fun doc => ?_⟩
  refine ⟨?_, ?_, ?_, ?_, ?_, ?_, ?_, ?_, ?_, ?_, ?_⟩
  · simp [loadConfigFrom, unmarshalConfig, Bool.or_eq_true, or_assoc]
  all_goals
    first
      | (intro x hx
         simp [loadConfigFrom, unmarshalConfig, hx, JsonField.decodeInto])
      | (intro h
         rcases h with h | h <;>
           simp [loadConfigFrom, unmarshalConfig, h, JsonField.decodeInto])

/-- C9 witness: the amended theorem at the counterexample's document — the
well-typed threshold is decoded, the mistyped division factor keeps its
default, and the parse is reported failed. -/
theorem parse_failure_still_proceeds_witness :
    (loadConfigFrom (ConfigBytes.valid typeErrorDoc)).1.threshold = 9/10 ∧
    (loadConfigFrom (ConfigBytes.valid typeErrorDoc)).1.divisionFactor
      = defaultConfig.divisionFactor ∧
    (loadConfigFrom (ConfigBytes.valid typeErrorDoc)).2 = true :=
  ⟨(parse_failure_still_proceeds.2 typeErrorDoc).2.1 (9/10) rfl,
   (parse_failure_still_proceeds.2 typeErrorDoc).2.2.2.2.1 (Or.inl rfl),
   ((parse_failure_still_proceeds.2 typeErrorDoc).1).mpr (Or.inr (Or.inl rfl))⟩

/-- C10: the per-tick buffer write and cursor update are in bounds exactly
under the loop invariant implied by `SampleWindow ≥ 1` (buffer length equals
the window, cursor below it): under it every tick completes; the
configuration pipeline performs no validation, so a file `sample_window` of
0 reaches the loop unchanged, and the first tick that reads a peak then
writes `peakBuffer[0]` into an empty slice (and takes `% 0`), a Go runtime
panic that aborts the program (src/main.go lines 158-159, 180-187). -/
theorem buffer_bounds_and_zero_window_panic :
    (∀ (cfg : Config) (s : LoopState) (inp : TickInput),
      s.peakBuffer.length = cfg.sampleWindow → s.bufferIndex < cfg.sampleWindow →
      (tick cfg s inp).isSome = true) ∧
    (∀ f : ConfigFile, f.sampleWindow = some 0 →
      (loadConfigResult (Except.ok f)).sampleWindow = 0 ∧
      ∀ (inp : TickInput) (p : ℚ), inp.peakRead = some p →
        tick (loadConfigResult (Except.ok f))
          (initialState (loadConfigResult (Except.ok f))) inp = none) := by
  constructor
  · intro cfg s inp hlen hidx
    cases hp : inp.peakRead with
    | none => simp [tick, hp]
    | some p =>
      rw [tick_eq_of_peak cfg s inp p hlen hidx hp]
      cases inp.volumeRead <;> dsimp only <;> (try split_ifs) <;> simp
  · intro f hf
    have hw : (loadConfigResult (Except.ok f)).sampleWindow = 0 := by
      simp [loadConfigResult, mergeConfig, hf]
    refine ⟨hw, fun inp p hp => ?_⟩
    have hbuf : (initialState (loadConfigResult (Except.ok f))).peakBuffer = [] := by
      simp [initialState, hw]
    simp [tick, hp, hbuf, hw]

/-- C10 witness: the invariant side at the default configuration's first
tick; the panic side at the all-defaults file amended with
`sample_window = 0`. -/
theorem buffer_bounds_and_zero_window_panic_witness :
    (tick defaultConfig (initialState defaultConfig)
      { now := 0, peakRead := some (1/2), volumeRead := some (1/2), setVolumeOk := true }).isSome
      = true ∧
    (loadConfigResult (Except.ok { emptyConfigFile with sampleWindow := some 0 })).sampleWindow
      = 0 ∧
    tick (loadConfigResult (Except.ok { emptyConfigFile with sampleWindow := some 0 }))
      (initialState (loadConfigResult (Except.ok { emptyConfigFile with sampleWindow := some 0 })))
      { now := 0, peakRead := some (1/2), volumeRead := some (1/2), setVolumeOk := true } = none :=
  ⟨buffer_bounds_and_zero_window_panic.1 defaultConfig (initialState defaultConfig)
      { now := 0, peakRead := some (1/2), volumeRead := some (1/2), setVolumeOk := true }
      rfl (by decide),
   (buffer_bounds_and_zero_window_panic.2 { emptyConfigFile with sampleWindow := some 0 } rfl).1,
   (buffer_bounds_and_zero_window_panic.2 { emptyConfigFile with sampleWindow := some 0 } rfl).2
      { now := 0, peakRead := some (1/2), volumeRead := some (1/2), setVolumeOk := true }
      (1/2) rfl⟩

lemma mod_add_one_mod (m w : ℕ) : (m % w + 1) % w = (m + 1) % w := by
  simp [Nat.add_mod]

/-- Overwriting slot `i` and rotating one further: the ring buffer read in
chronological order drops its oldest element and appends the new one. -/
lemma rotate_set_tail (d : List ℚ) (i : ℕ) (x : ℚ) (hi : i < d.length) :
    (d.set i x).rotate ((i + 1) % d.length) = (d.rotate i).tail ++ [x] := by
  have hset : d.set i x = d.take i ++ x :: d.drop (i + 1) := List.set_eq_take_cons_drop x hi
  have hrot : d.rotate i = d.drop i ++ d.take i :=
    List.rotate_eq_drop_append_take (le_of_lt hi)
  have htail : (d.rotate i).tail = d.drop (i + 1) ++ d.take i := by
    rw [hrot, List.drop_eq_getElem_cons hi]
    rfl
  have hlentake : (d.take i).length = i := by
    rw [List.length_take]
    exact min_eq_left (le_of_lt hi)
  rcases Nat.lt_or_ge (i + 1) d.length with hlt2 | hge
  · rw [Nat.mod_eq_of_lt hlt2, htail]
    rw [List.rotate_eq_drop_append_take (by rw [List.length_set]; exact hlt2.le)]
    rw [hset]
    have hdrop : (d.take i ++ x :: d.drop (i + 1)).drop (i + 1) = d.drop (i + 1) := by
      rw [show i + 1 = (d.take i).length + 1 by rw [hlentake], List.drop_append]
      simp
    have htake : (d.take i ++ x :: d.drop (i + 1)).take (i + 1) = d.take i ++ [x] := by
      rw [List.take_append_eq_append_take, List.take_of_length_le (by rw [hlentake]; omega),
        hlentake]
      simp
    rw [hdrop, htake, List.append_assoc]
  · have heq : i + 1 = d.length := le_antisymm hi hge
    rw [heq, Nat.mod_self, List.rotate_zero, htail, hset,
      List.drop_eq_nil_of_le (le_of_eq heq.symm)]
    simp

/-- Ring-buffer invariant, by induction over the pushed samples: after
pushing `xs` onto a buffer whose rotation by its cursor reads `W`
(chronologically oldest first), the rotation by the new cursor reads the
last `|W|` elements of `W ++ xs`, and the cursor has advanced by `|xs|`
modulo the window. -/
lemma pushAll_rotate (w : ℕ) (hw : 0 < w) (xs : List ℚ) :
    ∀ (m : ℕ) (d W : List ℚ), d.length = w → d.rotate (m % w) = W →
      ((pushAll w (d, m % w) xs).1.rotate ((m + xs.length) % w) =
          (W ++ xs).drop xs.length ∧
        (pushAll w (d, m % w) xs).1.length = w ∧
        (pushAll w (d, m % w) xs).2 = (m + xs.length) % w) := by
  induction xs with
  | nil =>
    intro m d W hd hrotW
    simpa [pushAll, hd] using hrotW
  | cons x rest ih =>
    intro m d W hd hrotW
    have hWlen : W.length = w := by
      rw [← hrotW, (List.rotate_perm d (m % w)).length_eq, hd]
    have hWne : W ≠ [] := by
      intro hnil
      rw [hnil] at hWlen
      simp at hWlen
      omega
    have hstep : pushAll w (d, m % w) (x :: rest) =
        pushAll w (d.set (m % w) x, ((m + 1) % w)) rest := by
      simp [pushAll, pushSample, mod_add_one_mod]
    have hmlt : m % w < d.length := by
      rw [hd]
      exact Nat.mod_lt m hw
    have hrot' : (d.set (m % w) x).rotate ((m + 1) % w) = W.tail ++ [x] := by
      have := rotate_set_tail d (m % w) x hmlt
      rw [hd] at this
      rw [mod_add_one_mod] at this
      rw [this, hrotW]
    have ihr := ih (m + 1) (d.set (m % w) x) (W.tail ++ [x])
      (by rw [List.length_set, hd]) hrot'
    obtain ⟨W0, Wt, rfl⟩ : ∃ a t, W = a :: t := by
      cases W with
      | nil => exact absurd rfl hWne
      | cons a t => exact ⟨a, t, rfl⟩
    have hwin : ((W0 :: Wt ++ x :: rest)).drop (x :: rest).length =
        (((W0 :: Wt).tail ++ [x]) ++ rest).drop rest.length := by
      simp only [List.cons_append, List.length_cons, List.drop_succ_cons, List.tail_cons]
      rw [List.append_assoc]
      simp
    rw [hstep]
    refine ⟨?_, ihr.2.1, ?_⟩
    · rw [hwin]
      have harith : m + (x :: rest).length = m + 1 + rest.length := by
        simp [Nat.add_comm, Nat.add_assoc]
        omega
      rw [harith]
      exact ihr.1
    · have harith : m + (x :: rest).length = m + 1 + rest.length := by
        simp only [List.length_cons]
        omega
      rw [harith]
      exact ihr.2.2

/-- C5: for a window `w ≥ 1`, after pushing `N ≥ w` samples into the
initially zero-filled ring buffer the computed average is the arithmetic
mean of exactly the most recent `w` pushed samples; with fewer than `w`
pushes the unwritten slots contribute zero, so the average is the sum of all
pushes divided by `w` (src/main.go lines 158-159, 180-187). -/
theorem average_is_mean_of_window (w : ℕ) (xs : List ℚ) (hw : 1 ≤ w) :
    (w ≤ xs.length →
      averageOf w (pushAll w (List.replicate w 0, 0) xs).1 =
        (xs.drop (xs.length - w)).sum / (w : ℚ)) ∧
    (xs.length < w →
      averageOf w (pushAll w (List.replicate w 0, 0) xs).1 = xs.sum / (w : ℚ)) := by
  have hw0 : 0 < w := hw
  have hbase := pushAll_rotate w hw0 xs 0 (List.replicate w 0) (List.replicate w 0)
    (by simp) (by rw [List.rotate_replicate])
  rw [Nat.zero_mod] at hbase
  have hsum : (pushAll w (List.replicate w 0, 0) xs).1.sum =
      ((List.replicate w (0 : ℚ) ++ xs).drop xs.length).sum := by
    have hperm := List.rotate_perm (pushAll w (List.replicate w 0, 0) xs).1
      ((0 + xs.length) % w)
    rw [← hperm.sum_eq, hbase.1]
  constructor
  · intro hN
    have hdrop : (List.replicate w (0 : ℚ) ++ xs).drop xs.length =
        xs.drop (xs.length - w) := by
      have hsplit : (List.replicate w (0 : ℚ)).length + (xs.length - w) = xs.length := by
        simp only [List.length_replicate]
        omega
      conv_lhs => rw [← hsplit]
      rw [List.drop_append]
    rw [averageOf, hsum, hdrop]
  · intro hN
    have hdrop : (List.replicate w (0 : ℚ) ++ xs).drop xs.length =
        List.replicate (w - xs.length) (0 : ℚ) ++ xs := by
      rw [List.drop_append_of_le_length (by simp; omega), List.drop_replicate]
    rw [averageOf, hsum, hdrop]
    simp

/-- C5 witness: window 2, pushes `[1, 2, 3]` — the buffer holds `[3, 2]`,
average `5/2`, the mean of the last two pushes. -/
theorem average_is_mean_of_window_witness :
    averageOf 2 (pushAll 2 (List.replicate 2 0, 0) [1, 2, 3]).1 =
      (([1, 2, 3] : List ℚ).drop (([1, 2, 3] : List ℚ).length - 2)).sum / (2 : ℚ) :=
  (average_is_mean_of_window 2 [1, 2, 3] (by omega)).1 (by simp)

lemma runTicks_append (cfg : Config) (A : List TickInput) :
    ∀ (B : List TickInput) (s s₁ : LoopState) (evs₁ : List (Option ℚ))
      (s₂ : LoopState) (evs₂ : List (Option ℚ)),
      runTicks cfg s A = some (s₁, evs₁) → runTicks cfg s₁ B = some (s₂, evs₂) →
      runTicks cfg s (A ++ B) = some (s₂, evs₁ ++ evs₂) := by
  induction A with
  | nil =>
    intro B s s₁ evs₁ s₂ evs₂ hA hB
    simp only [runTicks, Option.some.injEq, Prod.mk.injEq] at hA
    obtain ⟨rfl, rfl⟩ := hA
    simpa using hB
  | cons inp rest ih =>
    intro B s s₁ evs₁ s₂ evs₂ hA hB
    simp only [runTicks, List.cons_append] at hA ⊢
    cases htick : tick cfg s inp with
    | none =>
      rw [htick] at hA
      simp at hA
    | some pr =>
      obtain ⟨s', ev⟩ := pr
      rw [htick] at hA
      dsimp only at hA ⊢
      cases hrest : runTicks cfg s' rest with
      | none =>
        rw [hrest] at hA
        simp at hA
      | some pr2 =>
        obtain ⟨sE, evs⟩ := pr2
        rw [hrest] at hA
        simp only [Option.some.injEq, Prod.mk.injEq] at hA
        obtain ⟨rfl, rfl⟩ := hA
        rw [List.append_eq, ih B s' sE evs s₂ evs₂ hrest hB]
        rfl

lemma allTicksQuiet_append (cfg : Config) (A : List TickInput) :
    ∀ (B : List TickInput) (s : LoopState),
      allTicksQuiet cfg s (A ++ B) = true →
      allTicksQuiet cfg s A = true ∧
      ∀ s₁ evs, runTicks cfg s A = some (s₁, evs) → allTicksQuiet cfg s₁ B = true := by
  induction A with
  | nil =>
    intro B s h
    refine ⟨rfl, fun s₁ evs hrun => ?_⟩
    simp only [runTicks, Option.some.injEq, Prod.mk.injEq] at hrun
    obtain ⟨rfl, rfl⟩ := hrun
    simpa using h
  | cons inp rest ih =>
    intro B s h
    simp only [allTicksQuiet, List.cons_append, Bool.and_eq_true] at h ⊢
    obtain ⟨hpk, hrest⟩ := h
    cases htick : tick cfg s inp with
    | none =>
      refine ⟨⟨hpk, rfl⟩, fun s₁ evs hrun => ?_⟩
      rw [runTicks, htick] at hrun
      simp at hrun
    | some pr =>
      obtain ⟨s', ev⟩ := pr
      rw [htick] at hrest
      dsimp only at hrest
      have ihr := ih B s' hrest
      refine ⟨⟨hpk, ihr.1⟩, fun s₁ evs hrun => ?_⟩
      rw [runTicks, htick] at hrun
      dsimp only at hrun
      cases hrest2 : runTicks cfg s' rest with
      | none =>
        rw [hrest2] at hrun
        simp at hrun
      | some pr2 =>
        obtain ⟨sE, evs'⟩ := pr2
        rw [hrest2] at hrun
        simp only [Option.some.injEq, Prod.mk.injEq] at hrun
        obtain ⟨rfl, rfl⟩ := hrun
        exact ihr.2 _ _ hrest2

lemma runTicks_holdPhase (cfg : Config) (A : List TickInput) :
    ∀ (s : LoopState),
      s.peakBuffer.length = cfg.sampleWindow →
      s.bufferIndex < cfg.sampleWindow →
      s.isReducedVolume = true →
      (∀ inp ∈ A, inp.peakRead.isSome = true ∧ inp.volumeRead.isSome = true) →
      allTicksQuiet cfg s A = true →
      (∀ inp ∈ A, inp.now - s.lastLoudTimestamp ≤ (cfg.restoreDelay : ℚ)) →
      ∃ s₁, runTicks cfg s A = some (s₁, List.replicate A.length none) ∧
        s₁.isReducedVolume = true ∧
        s₁.lastLoudTimestamp = s.lastLoudTimestamp ∧
        s₁.originalVolume = s.originalVolume ∧
        s₁.peakBuffer.length = cfg.sampleWindow ∧
        s₁.bufferIndex < cfg.sampleWindow := by
  induction A with
  | nil =>
    intro s h1 h2 h3 _ _ _
    exact ⟨s, by simp [runTicks], h3, rfl, rfl, h1, h2⟩
  | cons inp rest ih =>
    intro s hlen hidx hred hreads hquiet hhold
    obtain ⟨p, hp⟩ := Option.isSome_iff_exists.mp (hreads inp (by simp)).1
    obtain ⟨v, hv⟩ := Option.isSome_iff_exists.mp (hreads inp (by simp)).2
    simp only [allTicksQuiet, Bool.and_eq_true] at hquiet
    obtain ⟨hq1, hq2⟩ := hquiet
    rw [hp] at hq1
    have havg : avgAfterPush cfg s p ≤ cfg.threshold := of_decide_eq_true hq1
    have htime : inp.now - s.lastLoudTimestamp ≤ (cfg.restoreDelay : ℚ) :=
      hhold inp (by simp)
    have htick := tick_hold cfg s inp p v hlen hidx hred hp hv havg htime
    have hlen' : (pushState cfg s p).peakBuffer.length = cfg.sampleWindow := by
      simp [pushState, List.length_set, hlen]
    have hidx' : (pushState cfg s p).bufferIndex < cfg.sampleWindow := by
      simp only [pushState]
      exact Nat.mod_lt _ (Nat.lt_of_le_of_lt (Nat.zero_le _) hidx)
    rw [htick] at hq2
    have ihr := ih (pushState cfg s p) hlen' hidx' hred
      (fun i hi => hreads i (by simp [hi])) hq2
      (fun i hi => hhold i (by simp [hi]))
    obtain ⟨s₁, hrun, ha, hb, hc, hd, he⟩ := ihr
    refine ⟨s₁, ?_, ha, hb, hc, hd, he⟩
    simp only [runTicks, htick, hrun, List.length_cons, List.replicate_succ]

/-- C2: starting `Reduced` with loud timestamp `T`, along any run whose
ticks all read successfully and all compute an average at or below the
threshold, no volume command at all is issued on the ticks whose clock
reading is within `restoreDelay` of `T`, and on the first tick whose reading
exceeds `T + restoreDelay` the restore `setVolume(originalVolume)` is
issued; on its success the state returns to `Normal`
(src/main.go lines 215-224). -/
theorem hysteresis_hold_then_restore (cfg : Config) (s₀ : LoopState)
    (A : List TickInput) (b : TickInput)
    (hlen : s₀.peakBuffer.length = cfg.sampleWindow)
    (hidx : s₀.bufferIndex < cfg.sampleWindow)
    (hred : s₀.isReducedVolume = true)
    (hreads : ∀ inp ∈ A ++ [b], inp.peakRead.isSome = true ∧ inp.volumeRead.isSome = true)
    (hquiet : allTicksQuiet cfg s₀ (A ++ [b]) = true)
    (hhold : ∀ a ∈ A, a.now - s₀.lastLoudTimestamp ≤ (cfg.restoreDelay : ℚ))
    (hfire : b.now - s₀.lastLoudTimestamp > (cfg.restoreDelay : ℚ))
    (hok : b.setVolumeOk = true) :
    ∃ sEnd, runTicks cfg s₀ (A ++ [b]) =
        some (sEnd, List.replicate A.length none ++ [some s₀.originalVolume]) ∧
      sEnd.isReducedVolume = false := by
  obtain ⟨hqA, hqB⟩ := allTicksQuiet_append cfg A [b] s₀ hquiet
  obtain ⟨s₁, hrun, h1, h2, h3, h4, h5⟩ := runTicks_holdPhase cfg A s₀ hlen hidx hred
    (fun i hi => hreads i (by simp [hi])) hqA hhold
  have hq1 := hqB s₁ _ hrun
  obtain ⟨p, hp⟩ := Option.isSome_iff_exists.mp (hreads b (by simp)).1
  obtain ⟨v, hv⟩ := Option.isSome_iff_exists.mp (hreads b (by simp)).2
  simp only [allTicksQuiet, Bool.and_eq_true] at hq1
  have hq1' := hq1.1
  rw [hp] at hq1'
  have havg : avgAfterPush cfg s₁ p ≤ cfg.threshold := of_decide_eq_true hq1'
  have htick := tick_restore cfg s₁ b p v h4 h5 h1 hp hv havg
    (by rw [h2]; exact hfire) hok
  have hrun2 : runTicks cfg s₁ [b] =
      some ({ pushState cfg s₁ p with isReducedVolume := false},
        [some s₀.originalVolume]) := by
    rw [← h3]
    simp only [runTicks, htick]
  exact ⟨{ pushState cfg s₁ p with isReducedVolume := false},
    runTicks_append cfg A [b] s₀ s₁ _ _ _ hrun hrun2, rfl⟩

/-- C2 witness: window 1, threshold 0.4, delay 3; reduced at T = 0 with
original volume 0.8; quiet ticks at times 1 and 3 (exactly the delay) issue
nothing, and the tick at time 3.5 issues the restore of 0.8 and returns to
`Normal`. -/
theorem hysteresis_hold_then_restore_witness :
    ∃ sEnd, runTicks { defaultConfig with sampleWindow := 1 }
        { isReducedVolume := true, originalVolume := 4/5, lastLoudTimestamp := 0,
          peakBuffer := [0], bufferIndex := 0 }
        ([{ now := 1, peakRead := some 0, volumeRead := some (1/5), setVolumeOk := true },
          { now := 3, peakRead := some (1/5), volumeRead := some (1/5), setVolumeOk := true }] ++
         [{ now := 7/2, peakRead := some 0, volumeRead := some (1/5), setVolumeOk := true }]) =
        some (sEnd, List.replicate 2 none ++ [some (4/5 : ℚ)]) ∧
      sEnd.isReducedVolume = false := by
  refine hysteresis_hold_then_restore { defaultConfig with sampleWindow := 1 }
    { isReducedVolume := true, originalVolume := 4/5, lastLoudTimestamp := 0,
      peakBuffer := [0], bufferIndex := 0 }
    [{ now := 1, peakRead := some 0, volumeRead := some (1/5), setVolumeOk := true },
     { now := 3, peakRead := some (1/5), volumeRead := some (1/5), setVolumeOk := true }]
    { now := 7/2, peakRead := some 0, volumeRead := some (1/5), setVolumeOk := true }
    rfl (by decide) rfl ?_ ?_ ?_ ?_ rfl
  · intro i hi
    simp only [List.cons_append, List.nil_append, List.mem_cons,
      List.not_mem_nil, or_false] at hi
    rcases hi with rfl | rfl | rfl <;> exact ⟨rfl, rfl⟩
  · norm_num [allTicksQuiet, tick, avgAfterPush, averageOf, pushSample, defaultConfig,
      decide_eq_true_eq]
  · intro a ha
    simp only [List.mem_cons, List.not_mem_nil, or_false] at ha
    rcases ha with rfl | rfl <;> norm_num [defaultConfig]
  · norm_num [defaultConfig]

end EarGuard
